import Mathlib

/-!
Verification of the fundingarb trading core against its specification.

The development shallowly embeds the Python source of the repository:
monetary and rate quantities (`decimal.Decimal`) become `ℚ`, UTC instants
become `ℚ` seconds since the epoch, `None`-able values become `Option`,
and raising code becomes `Except`.  Each embedded definition mirrors one
Python function or class from `src/backend`.
-/

namespace FundingArb

/-- `OrderSide` enum from `backend/exchanges/types.py`. -/
inductive OrderSide where
  | BUY
  | SELL
deriving DecidableEq, Repr

/-- `OrderSide.opposite` property from `backend/exchanges/types.py`. -/
def OrderSide.opposite : OrderSide → OrderSide
  | .BUY => .SELL
  | .SELL => .BUY

/-- `OrderType` enum from `backend/exchanges/types.py`. -/
inductive OrderType where
  | LIMIT
  | MARKET
deriving DecidableEq, Repr

/-- `OrderStatus` enum from `backend/exchanges/types.py`. -/
inductive OrderStatus where
  | PENDING
  | OPEN
  | FILLED
  | PARTIALLY_FILLED
  | CANCELLED
  | REJECTED
  | EXPIRED
deriving DecidableEq, Repr

/-- Python truthiness of an optional `Decimal`: `None` and `0` are falsy. -/
def truthyQ : Option ℚ → Bool
  | none => false
  | some x => x ≠ 0

/-- `FundingRate` dataclass from `backend/exchanges/types.py` (fields only).
Decimals are embedded as `ℚ`; datetimes as `ℚ` seconds since the epoch. -/
structure FundingRate where
  exchange : String
  symbol : String
  rate : ℚ
  predicted_rate : Option ℚ
  next_funding_time : ℚ
  timestamp : ℚ
  interval_hours : ℤ := 8
  mark_price : Option ℚ := none
  index_price : Option ℚ := none
deriving DecidableEq, Repr

/-- The attribute names (dataclass fields and `@property` methods) actually
defined on the `FundingRate` class in `backend/exchanges/types.py`. -/
def fundingRateAttrs : List String :=
  ["exchange", "symbol", "rate", "predicted_rate", "next_funding_time",
   "timestamp", "interval_hours", "mark_price", "index_price",
   "rate_percent", "annualized_rate"]

/-- The attribute name the detector's sort key accesses on every
`FundingRate` (`x[1].daily_rate` in
`ArbitrageDetector.find_opportunities`, `backend/engine/detector.py`). -/
def detectorSortKeyAttr : String := "daily_rate"

/-- `FundingRate.rate_percent` property from `backend/exchanges/types.py`. -/
def FundingRate.rate_percent (fr : FundingRate) : ℚ := fr.rate * 100

/-- `FundingRate.annualized_rate` property from
`backend/exchanges/types.py`: `rate * (24 / interval_hours) * 365 * 100`. -/
def FundingRate.annualized_rate (fr : FundingRate) : ℚ :=
  fr.rate * ((24 : ℚ) / (fr.interval_hours : ℚ)) * 365 * 100

/-- Modelled from the spec: the `daily_rate` property of `FundingRate` is
referenced by `backend/engine/detector.py`, `backend/api/routes/positions.py`
and asserted to exist by `tests/unit/test_scanner.py`, but it is absent from
the `FundingRate` class in `backend/exchanges/types.py`.  The spec defines it
as `daily_rate = rate × 24 / interval_hours` (`periods_per_day = 24 /
interval_hours`), which is also the value the unit tests expect. -/
def FundingRate.daily_rate (fr : FundingRate) : ℚ :=
  fr.rate * ((24 : ℚ) / (fr.interval_hours : ℚ))

/-- `OrderBookLevel` dataclass from `backend/exchanges/types.py`. -/
structure OrderBookLevel where
  price : ℚ
  size : ℚ
deriving DecidableEq, Repr

/-- `OrderBook` dataclass from `backend/exchanges/types.py`. -/
structure OrderBook where
  exchange : String
  symbol : String
  bids : List OrderBookLevel
  asks : List OrderBookLevel
  timestamp : ℚ
deriving DecidableEq, Repr

/-- `OrderBook.best_bid`: first bid's price, `None` if no bids. -/
def OrderBook.best_bid (b : OrderBook) : Option ℚ :=
  b.bids.head?.map (·.price)

/-- `OrderBook.best_ask`: first ask's price, `None` if no asks. -/
def OrderBook.best_ask (b : OrderBook) : Option ℚ :=
  b.asks.head?.map (·.price)

/-- `OrderBook.mid_price`: `(best_bid + best_ask) / 2` when both are truthy
(Python `if self.best_bid and self.best_ask`), otherwise `None`. -/
def OrderBook.mid_price (b : OrderBook) : Option ℚ :=
  if truthyQ b.best_bid && truthyQ b.best_ask then
    some ((b.best_bid.getD 0 + b.best_ask.getD 0) / 2)
  else
    none

/-- `OrderBook.get_depth(side, levels)`: total size over the top `levels`
levels of the chosen side (`bids` when `side == "bid"`, else `asks`). -/
def OrderBook.get_depth (b : OrderBook) (side : String) (levels : ℕ := 5) : ℚ :=
  ((if side == "bid" then b.bids else b.asks).take levels).foldl
    (fun acc l => acc + l.size) 0

/-- `OrderResult` dataclass from `backend/exchanges/types.py`
(fields relevant to the engine). -/
structure OrderResult where
  order_id : String
  exchange : String
  symbol : String
  side : OrderSide
  order_type : OrderType
  status : OrderStatus
  size : ℚ
  filled_size : ℚ
  price : Option ℚ
  average_price : Option ℚ
  fee : ℚ
deriving DecidableEq, Repr

/-- `OrderResult.is_filled` property. -/
def OrderResult.is_filled (r : OrderResult) : Bool :=
  r.status == .FILLED

end FundingArb

/-! ### Generic stable insertion sort

Models Python's stable `sorted` / `list.sort` for the two sort sites in
`backend/engine/detector.py`. -/

/-- Insert `x` into `l` after every element `y` with `r y x`
(the insertion point of a stable sort). -/
def insertSorted (r : α → α → Prop) [DecidableRel r] (x : α) : List α → List α
  | [] => [x]
  | y :: ys => if r y x then y :: insertSorted r x ys else x :: y :: ys

/-- Stable insertion sort by the relation `r`. -/
def sortList (r : α → α → Prop) [DecidableRel r] : List α → List α
  | [] => []
  | x :: xs => insertSorted r x (sortList r xs)


namespace FundingArb

/-! ### Detector (`backend/engine/detector.py`) -/

/-- The threshold-relevant fields of `TradingConfig`
(`backend/config/schema.py`). -/
structure TradingConfig where
  min_daily_spread_base : ℚ
  min_daily_spread_per_10k : ℚ
  negative_spread_tolerance : ℚ
deriving DecidableEq, Repr

/-- `ArbitrageOpportunity` dataclass from `backend/engine/detector.py`. -/
structure ArbitrageOpportunity where
  symbol : String
  long_exchange : String
  short_exchange : String
  long_interval_hours : ℤ
  short_interval_hours : ℤ
  long_rate : ℚ
  short_rate : ℚ
  long_daily_rate : ℚ
  short_daily_rate : ℚ
  daily_spread : ℚ
  spread : ℚ
  expected_daily_profit : ℚ
  annualized_apr : ℚ
  next_funding_time : ℚ
  seconds_to_funding : ℚ
  detected_at : ℚ
deriving DecidableEq, Repr

/-- A rate snapshot `exchange → symbol → FundingRate`, embedded as nested
association lists (Python dict iteration order preserved). -/
abbrev RateSnapshot := List (String × List (String × FundingRate))

/-- A fee table `exchange → taker_fee` (the `taker_fee` field of the
`FeeTier` values handed to `ArbitrageDetector`). -/
abbrev FeeTable := List (String × ℚ)

/-- `ArbitrageDetector.calculate_threshold`:
`base + per_10k * (size / 10000)`. -/
def calculate_threshold (cfg : TradingConfig) (position_size_usd : ℚ) : ℚ :=
  cfg.min_daily_spread_base +
    cfg.min_daily_spread_per_10k * (position_size_usd / 10000)

/-- `ArbitrageDetector.calculate_fees`: for each of the two legs, taker fee
from the fee table (default `0.0004`) times the size times 2 (entry+exit). -/
def calculate_fees (feeTiers : FeeTable) (position_size_usd : ℚ)
    (long_exchange short_exchange : String) : ℚ :=
  [long_exchange, short_exchange].foldl
    (fun acc ex =>
      acc + position_size_usd * ((feeTiers.lookup ex).getD (4 / 10000)) * 2)
    0

/-- The per-symbol rate collection inside `find_opportunities`:
`{exchange: rates[exchange][symbol] for exchange in rates if symbol in rates[exchange]}`. -/
def symbolRates (rates : RateSnapshot) (symbol : String) :
    List (String × FundingRate) :=
  rates.filterMap (fun p => (p.2.lookup symbol).map (fun fr => (p.1, fr)))

/-- The detector's ascending sort key: `FundingRate.daily_rate` of the
second component. -/
def dailyRateLE (a b : String × FundingRate) : Prop :=
  a.2.daily_rate ≤ b.2.daily_rate

instance : DecidableRel dailyRateLE := fun a b =>
  inferInstanceAs (Decidable (a.2.daily_rate ≤ b.2.daily_rate))

/-- The final descending sort order of `find_opportunities`
(`sort(key=daily_spread, reverse=True)`). -/
def dailySpreadGE (a b : ArbitrageOpportunity) : Prop :=
  b.daily_spread ≤ a.daily_spread

instance : DecidableRel dailySpreadGE := fun a b =>
  inferInstanceAs (Decidable (b.daily_spread ≤ a.daily_spread))

/-- The body of the per-symbol loop of
`ArbitrageDetector.find_opportunities`: `none` when any of the `continue`
branches is taken, otherwise the appended `ArbitrageOpportunity`. -/
def processSymbol (cfg : TradingConfig) (feeTiers : FeeTable)
    (rates : RateSnapshot) (position_size_usd : ℚ) (now : ℚ)
    (min_seconds_to_funding : ℚ) (symbol : String) :
    Option ArbitrageOpportunity :=
  let symbol_rates := symbolRates rates symbol
  if symbol_rates.length < 2 then none
  else
    match (sortList dailyRateLE symbol_rates).head?,
          (sortList dailyRateLE symbol_rates).getLast? with
    | some (long_exchange, long_rate_obj),
      some (short_exchange, short_rate_obj) =>
      let long_daily_rate := long_rate_obj.daily_rate
      let short_daily_rate := short_rate_obj.daily_rate
      let daily_spread := short_daily_rate - long_daily_rate
      let raw_spread := short_rate_obj.rate - long_rate_obj.rate
      if daily_spread < calculate_threshold cfg position_size_usd then none
      else
        let next_funding :=
          min long_rate_obj.next_funding_time short_rate_obj.next_funding_time
        let seconds_to_funding := next_funding - now
        if seconds_to_funding < min_seconds_to_funding then none
        else
          let expected_daily_profit := position_size_usd * daily_spread
          let fees :=
            calculate_fees feeTiers position_size_usd long_exchange
              short_exchange
          let daily_fee_amortized := fees / 7
          let net_daily_profit := expected_daily_profit - daily_fee_amortized
          if net_daily_profit ≤ 0 then none
          else
            some
              { symbol := symbol
                long_exchange := long_exchange
                short_exchange := short_exchange
                long_interval_hours := long_rate_obj.interval_hours
                short_interval_hours := short_rate_obj.interval_hours
                long_rate := long_rate_obj.rate
                short_rate := short_rate_obj.rate
                long_daily_rate := long_daily_rate
                short_daily_rate := short_daily_rate
                daily_spread := daily_spread
                spread := raw_spread
                expected_daily_profit := net_daily_profit
                annualized_apr :=
                  net_daily_profit / position_size_usd * 365 * 100
                next_funding_time := next_funding
                seconds_to_funding := seconds_to_funding
                detected_at := now }
    | _, _ => none

/-- The symbol universe of `find_opportunities`: the union of every
exchange's symbol keys. -/
def allSymbols (rates : RateSnapshot) : List String :=
  (rates.flatMap (fun p => p.2.map Prod.fst)).dedup

/-- `ArbitrageDetector.find_opportunities(rates, position_size_usd,
min_seconds_to_funding)`: per-symbol opportunity construction followed by
the stable descending sort on `daily_spread`. -/
def find_opportunities (cfg : TradingConfig) (feeTiers : FeeTable)
    (rates : RateSnapshot) (position_size_usd : ℚ) (now : ℚ)
    (min_seconds_to_funding : ℚ := 60) : List ArbitrageOpportunity :=
  sortList dailySpreadGE
    ((allSymbols rates).filterMap
      (processSymbol cfg feeTiers rates position_size_usd now
        min_seconds_to_funding))

/-- `ArbitrageDetector.find_best_opportunity`: first opportunity whose
symbol is not excluded, if any. -/
def find_best_opportunity (cfg : TradingConfig) (feeTiers : FeeTable)
    (rates : RateSnapshot) (position_size_usd : ℚ) (now : ℚ)
    (excluded_pairs : List String) : Option ArbitrageOpportunity :=
  ((find_opportunities cfg feeTiers rates position_size_usd now).filter
    (fun o => ¬ o.symbol ∈ excluded_pairs)).head?

end FundingArb

namespace FundingArb

/-! ### Executor (`backend/engine/executor.py`) -/

/-- `ExecutionResult` dataclass from `backend/engine/executor.py`. -/
structure ExecutionResult where
  success : Bool
  long_order : Option OrderResult
  short_order : Option OrderResult
  error_message : Option String := none
deriving DecidableEq, Repr

/-- An order as submitted to an exchange adapter: the `Order` dataclass of
`backend/exchanges/types.py` together with the adapter it was sent to. -/
structure PlacedOrder where
  exchange : String
  symbol : String
  side : OrderSide
  order_type : OrderType
  size : ℚ
  price : Option ℚ
  reduce_only : Bool
deriving DecidableEq, Repr

/-- The observations `ExecutionEngine.execute_entry` makes of the outside
world during one run: the two order books fetched up front, the outcome of
`_execute_with_timeout` for each leg (`none` when the order did not fill and
was cancelled, or ended in a terminal non-open status), the re-fetched
second-leg book, and whether the emergency close raises. -/
structure EntryEnv where
  long_book : OrderBook
  short_book : OrderBook
  first_leg_result : Option OrderResult
  refreshed_second_book : OrderBook
  second_leg_result : Option OrderResult
  emergency_close_raises : Bool
deriving Repr

/-- Leg-selection test of `execute_entry`:
`long_depth <= short_depth` where `long_depth = long_book.get_depth("ask", 5)`
and `short_depth = short_book.get_depth("bid", 5)`. -/
def firstLegIsLong (long_book short_book : OrderBook) : Bool :=
  long_book.get_depth "ask" 5 ≤ short_book.get_depth "bid" 5

/-- `ExecutionEngine._emergency_close`: submits one `reduce_only` MARKET
order for the opposite side via `_close_position`; an exception from the
venue (`raises = true`) is caught and logged, so the submission attempt and
the caller's outcome are the same either way. -/
def emergency_close (exchange symbol : String) (side : OrderSide) (size : ℚ)
    (_raises : Bool) : List PlacedOrder :=
  [{ exchange := exchange, symbol := symbol, side := side.opposite,
     order_type := .MARKET, size := size, price := none, reduce_only := true }]

/-- `ExecutionEngine.execute_entry(opportunity, size_usd)`, with the venue
interactions abstracted into `env`.  Returns the `ExecutionResult` and the
list of orders submitted to the adapters, in submission order. -/
def execute_entry (opportunity : ArbitrageOpportunity) (size_usd : ℚ)
    (env : EntryEnv) : ExecutionResult × List PlacedOrder :=
  let symbol := opportunity.symbol
  let isLongFirst := firstLegIsLong env.long_book env.short_book
  let first_exchange :=
    if isLongFirst then opportunity.long_exchange
    else opportunity.short_exchange
  let first_side : OrderSide := if isLongFirst then .BUY else .SELL
  let first_book := if isLongFirst then env.long_book else env.short_book
  let second_exchange :=
    if isLongFirst then opportunity.short_exchange
    else opportunity.long_exchange
  let second_side : OrderSide := if isLongFirst then .SELL else .BUY
  let second_book := if isLongFirst then env.short_book else env.long_book
  match first_book.mid_price, second_book.mid_price with
  | some first_price, some _second_price =>
    let first_size := size_usd / first_price
    let firstOrder : PlacedOrder :=
      { exchange := first_exchange, symbol := symbol, side := first_side,
        order_type := .LIMIT, size := first_size, price := some first_price,
        reduce_only := false }
    match env.first_leg_result with
    | none =>
      ({ success := false, long_order := none, short_order := none,
         error_message := some "First leg failed to fill" }, [firstOrder])
    | some first_result =>
      if ¬ first_result.is_filled then
        ({ success := false, long_order := none, short_order := none,
           error_message := some "First leg failed to fill" }, [firstOrder])
      else
        match env.refreshed_second_book.mid_price with
        | none =>
          let closes :=
            emergency_close first_exchange symbol first_side
              first_result.filled_size env.emergency_close_raises
          ({ success := false
             long_order :=
               if first_side = .BUY then some first_result else none
             short_order :=
               if first_side = .SELL then some first_result else none
             error_message :=
               some
                 "Second leg orderbook missing price data, first leg closed" },
            [firstOrder] ++ closes)
        | some second_price =>
          let second_size := size_usd / second_price
          let secondOrder : PlacedOrder :=
            { exchange := second_exchange, symbol := symbol,
              side := second_side, order_type := .LIMIT, size := second_size,
              price := some second_price, reduce_only := false }
          match env.second_leg_result with
          | none =>
            let closes :=
              emergency_close first_exchange symbol first_side
                first_result.filled_size env.emergency_close_raises
            ({ success := false
               long_order :=
                 if first_side = .BUY then some first_result else none
               short_order :=
                 if first_side = .SELL then some first_result else none
               error_message := some "Second leg failed, first leg closed" },
              [firstOrder, secondOrder] ++ closes)
          | some second_result =>
            if ¬ second_result.is_filled then
              let closes :=
                emergency_close first_exchange symbol first_side
                  first_result.filled_size env.emergency_close_raises
              ({ success := false
                 long_order :=
                   if first_side = .BUY then some first_result else none
                 short_order :=
                   if first_side = .SELL then some first_result else none
                 error_message := some "Second leg failed, first leg closed" },
                [firstOrder, secondOrder] ++ closes)
            else
              ({ success := true
                 long_order :=
                   if first_side = .BUY then some first_result
                   else some second_result
                 short_order :=
                   if first_side = .BUY then some second_result
                   else some first_result
                 error_message := none }, [firstOrder, secondOrder])
  | _, _ =>
    ({ success := false, long_order := none, short_order := none,
       error_message :=
         some "Orderbook missing price data (empty bids or asks)" }, [])

end FundingArb

namespace FundingArb

/-! ### Database model and position manager
(`backend/database/models.py`, `backend/engine/position_manager.py`) -/

/-- `PositionStatus` enum from `backend/database/models.py`. -/
inductive PositionStatus where
  | OPEN
  | CLOSED
  | LIQUIDATED
deriving DecidableEq, Repr

/-- `OrderSide` enum from `backend/database/models.py` (LONG / SHORT). -/
inductive DbOrderSide where
  | LONG
  | SHORT
deriving DecidableEq, Repr

/-- `OrderAction` enum from `backend/database/models.py`. -/
inductive OrderAction where
  | OPEN
  | CLOSE
deriving DecidableEq, Repr

/-- `TradeStatus` enum from `backend/database/models.py`. -/
inductive TradeStatus where
  | PENDING
  | FILLED
  | CANCELLED
  | FAILED
deriving DecidableEq, Repr

/-- The `positions` table row (`Position` model in
`backend/database/models.py`; timestamps abstracted away). -/
structure Position where
  id : String
  pair : String
  long_exchange : String
  short_exchange : String
  long_entry_price : Option ℚ
  short_entry_price : Option ℚ
  size_usd : ℚ
  long_size : Option ℚ
  short_size : Option ℚ
  leverage_long : ℤ := 1
  leverage_short : ℤ := 1
  entry_funding_spread : Option ℚ := none
  status : PositionStatus := .OPEN
  realized_pnl : Option ℚ := none
  funding_collected : ℚ := 0
  total_fees : ℚ := 0
  long_close_price : Option ℚ := none
  short_close_price : Option ℚ := none
  notes : Option String := none
deriving DecidableEq, Repr

/-- The index declarations of the `positions` table
(`Position.__table_args__` in `backend/database/models.py`), as
`(name, columns, unique)`.  Both are plain `Index(...)` declarations, which
SQLAlchemy creates as non-unique indexes. -/
def positionsTableIndexes : List (String × List String × Bool) :=
  [("ix_positions_pair_status", ["pair", "status"], false),
   ("ix_positions_entry_timestamp", ["entry_timestamp"], false)]

/-- `Position.is_open` property. -/
def Position.is_open (p : Position) : Bool :=
  p.status == .OPEN

/-- The `trades` table row (`Trade` model in
`backend/database/models.py`; timestamps abstracted away). -/
structure Trade where
  position_id : String
  exchange : String
  pair : String
  side : DbOrderSide
  action : OrderAction
  order_type : OrderType
  price : Option ℚ
  size : ℚ
  fee : ℚ
  order_id : Option String
  status : TradeStatus
deriving DecidableEq, Repr

/-- Python `a or b` on two optional Decimals: `a` when truthy, else `b`. -/
def pyOr (a b : Option ℚ) : Option ℚ :=
  if truthyQ a then a else b

/-- Python `a or b or Decimal("0")` collapsed to a plain Decimal. -/
def pyOrQ (a b : Option ℚ) : ℚ :=
  if truthyQ a then a.getD 0 else if truthyQ b then b.getD 0 else 0

/-- `PositionManager._record_trade`: build the `Trade` row it inserts. -/
def record_trade (position_id : String) (order_result : OrderResult)
    (exchange : String) (side : DbOrderSide) (action : OrderAction) : Trade :=
  { position_id := position_id
    exchange := exchange
    pair := order_result.symbol
    side := side
    action := action
    order_type := order_result.order_type
    price := pyOr order_result.average_price order_result.price
    size := order_result.filled_size
    fee := order_result.fee
    order_id := some order_result.order_id
    status := if order_result.is_filled then .FILLED else .FAILED }

/-- `PositionManager.create_position(opportunity, execution, size_usd)`.

The store is the list of `positions` rows; `PositionRepository.create` is a
bare `session.add` + `flush`, and `positionsTableIndexes` contains no unique
constraint, so the insert is modelled as an unconditional append.
`long_leverage` / `short_leverage` are the values read from the exchanges
(`get_position(...).leverage`, `none` on failure, default 5); `new_id` is
the generated UUID.  Returns the updated store, the created row and the two
OPEN trades, or the `ValueError` text on a failed execution. -/
def create_position (store : List Position)
    (opportunity : ArbitrageOpportunity) (execution : ExecutionResult)
    (size_usd : ℚ) (long_leverage short_leverage : Option ℤ)
    (new_id : String) :
    Except String (List Position × Position × List Trade) :=
  match execution.long_order, execution.short_order with
  | some long_order, some short_order =>
    if ¬ execution.success then
      .error "Cannot create position from failed execution"
    else
      let total_fees := long_order.fee + short_order.fee
      let position : Position :=
        { id := new_id
          pair := opportunity.symbol
          long_exchange := opportunity.long_exchange
          short_exchange := opportunity.short_exchange
          long_entry_price := pyOr long_order.average_price long_order.price
          short_entry_price := pyOr short_order.average_price short_order.price
          size_usd := size_usd
          long_size := some long_order.filled_size
          short_size := some short_order.filled_size
          leverage_long := long_leverage.getD 5
          leverage_short := short_leverage.getD 5
          entry_funding_spread := some opportunity.spread
          total_fees := total_fees
          status := .OPEN }
      let trades :=
        [record_trade new_id long_order opportunity.long_exchange .LONG .OPEN,
         record_trade new_id short_order opportunity.short_exchange .SHORT
           .OPEN]
      .ok (store ++ [position], position, trades)
  | _, _ => .error "Cannot create position from failed execution"

/-- `PositionRepository.get_open_position_for_pair(pair)` over the store. -/
def get_open_position_for_pair (store : List Position) (pair : String) :
    List Position :=
  store.filter (fun p => p.pair == pair && p.status == .OPEN)

/-- `PositionManager.close_position(position_id, execution)`, applied to the
row `position` looked up by `position_id` (`none` when absent).  Returns the
updated row and the CLOSE trades recorded, or the `ValueError` text. -/
def close_position (position : Option Position)
    (execution : ExecutionResult) : Except String (Position × List Trade) :=
  match position with
  | none => .error "Position not found"
  | some position =>
    if ¬ position.is_open then .error "Position already closed"
    else
      let long_close_price :=
        match execution.long_order with
        | some o => pyOrQ o.average_price o.price
        | none => 0
      let short_close_price :=
        match execution.short_order with
        | some o => pyOrQ o.average_price o.price
        | none => 0
      let close_fees :=
        (match execution.long_order with | some o => o.fee | none => 0) +
        (match execution.short_order with | some o => o.fee | none => 0)
      let long_trades :=
        match execution.long_order with
        | some o =>
          [record_trade position.id o position.long_exchange .LONG .CLOSE]
        | none => []
      let short_trades :=
        match execution.short_order with
        | some o =>
          [record_trade position.id o position.short_exchange .SHORT .CLOSE]
        | none => []
      let long_pnl :=
        if truthyQ position.long_entry_price && long_close_price ≠ 0 &&
            truthyQ position.long_size then
          (long_close_price - position.long_entry_price.getD 0) *
            position.long_size.getD 0
        else 0
      let short_pnl :=
        if truthyQ position.short_entry_price && short_close_price ≠ 0 &&
            truthyQ position.short_size then
          (position.short_entry_price.getD 0 - short_close_price) *
            position.short_size.getD 0
        else 0
      let total_fees := position.total_fees + close_fees
      let realized_pnl :=
        long_pnl + short_pnl + position.funding_collected - total_fees
      .ok
        ({ position with
            status := .CLOSED
            realized_pnl := some realized_pnl
            long_close_price := some long_close_price
            short_close_price := some short_close_price
            total_fees := total_fees }, long_trades ++ short_trades)

/-- The short leg's contribution to the realized P&L in `close_position`:
`(short_entry − short_close) × short_size` when the entry price, resolved
close price and size are all truthy, else `0`. -/
def short_close_pnl (position : Position) (o : OrderResult) : ℚ :=
  if truthyQ position.short_entry_price && pyOrQ o.average_price o.price ≠ 0
      && truthyQ position.short_size then
    (position.short_entry_price.getD 0 - pyOrQ o.average_price o.price) *
      position.short_size.getD 0
  else 0

/-- The long leg's contribution to the realized P&L in `close_position`. -/
def long_close_pnl (position : Position) (o : OrderResult) : ℚ :=
  if truthyQ position.long_entry_price && pyOrQ o.average_price o.price ≠ 0
      && truthyQ position.long_size then
    (pyOrQ o.average_price o.price - position.long_entry_price.getD 0) *
      position.long_size.getD 0
  else 0

/-- Projection used to inspect a `close_position` outcome: the updated row. -/
def closedRow (r : Except String (Position × List Trade)) : Option Position :=
  match r with
  | .ok (p, _) => some p
  | .error _ => none

end FundingArb

namespace FundingArb

/-! ### Risk manager (`backend/engine/risk_manager.py`) -/

/-- `PositionSide` enum from `backend/exchanges/types.py`. -/
inductive PositionSide where
  | LONG
  | SHORT
deriving DecidableEq, Repr

/-- The fields of `ExchangePosition` (`backend/exchanges/types.py`) that the
risk manager reads. -/
structure ExchangePositionView where
  symbol : String
  side : PositionSide
  size : ℚ
  entry_price : ℚ
  liquidation_price : Option ℚ
deriving DecidableEq, Repr

/-- Python dict assignment `m[k] = v` on an association list. -/
def dictSet (m : List (String × β)) (k : String) (v : β) :
    List (String × β) :=
  if m.any (fun p => p.1 == k) then
    m.map (fun p => if p.1 == k then (k, v) else p)
  else m ++ [(k, v)]

/-- Python `del m[k]` on an association list. -/
def dictDel (m : List (String × β)) (k : String) : List (String × β) :=
  m.filter (fun p => p.1 != k)

/-- The mutable state of `RiskManager` (`backend/engine/risk_manager.py`):
kill-switch flag and activation instant, paused pairs with cooldown expiry,
and the last-known venue positions used for liquidation detection. -/
structure RiskState where
  kill_switch_active : Bool := false
  kill_switch_activated_at : Option ℚ := none
  paused_pairs : List (String × ℚ) := []
  last_positions : List (String × List (String × ExchangePositionView)) := []
deriving DecidableEq, Repr

/-- `RiskManager.is_trading_enabled` property. -/
def is_trading_enabled (s : RiskState) : Bool :=
  ¬ s.kill_switch_active

/-- `RiskManager.is_pair_paused(symbol)` at instant `now`: self-evicting
read of the cooldown map. -/
def is_pair_paused (s : RiskState) (symbol : String) (now : ℚ) :
    RiskState × Bool :=
  match s.paused_pairs.lookup symbol with
  | none => (s, false)
  | some expiry =>
    if now ≥ expiry then
      ({ s with paused_pairs := dictDel s.paused_pairs symbol }, false)
    else (s, true)

/-- `RiskManager.pause_pair(symbol, cooldown_hours)` at instant `now`. -/
def pause_pair (s : RiskState) (symbol : String) (now cooldown_hours : ℚ) :
    RiskState :=
  { s with
      paused_pairs :=
        dictSet s.paused_pairs symbol (now + cooldown_hours * 3600) }

/-- `RiskManager.activate_kill_switch(reason)` at instant `now` (state
effect; the best-effort order cancellation, position flattening and alert
are venue/alert side effects).  A second activation while active is an
early return. -/
def activate_kill_switch (s : RiskState) (now : ℚ) : RiskState :=
  if s.kill_switch_active then s
  else
    { s with kill_switch_active := true,
             kill_switch_activated_at := some now }

/-- `RiskManager.deactivate_kill_switch()`. -/
def deactivate_kill_switch (s : RiskState) : RiskState :=
  if ¬ s.kill_switch_active then s
  else
    { s with kill_switch_active := false, kill_switch_activated_at := none }

/-- `RiskManager.check_position_limit(symbol, size_usd)` with config limit
`max_position_per_pair_usd`. -/
def check_position_limit (max_position_per_pair_usd size_usd : ℚ) : Bool :=
  ¬ (size_usd > max_position_per_pair_usd)

/-- `RiskManager.can_open_position(symbol, size_usd)` at instant `now`:
kill switch, then pair cooldown (self-evicting), then position limit.
The paused / limit refusal strings carry interpolated values in the source;
only their constant prefixes are modelled. -/
def can_open_position (max_position_per_pair_usd : ℚ) (s : RiskState)
    (symbol : String) (size_usd now : ℚ) : RiskState × Bool × String :=
  if s.kill_switch_active then (s, false, "Kill switch is active")
  else
    let (s', paused) := is_pair_paused s symbol now
    if paused then (s', false, "Pair is paused until ")
    else if ¬ check_position_limit max_position_per_pair_usd size_usd then
      (s', false, "Position size exceeds limit ")
    else (s', true, "OK")

/-- The state effect of `RiskManager.check_for_liquidations()`:
`self._last_positions[name] = current_map` for every venue whose
`get_positions()` succeeded (`fetched`); venues that raised are skipped. -/
def check_for_liquidations (s : RiskState)
    (fetched : List (String × List (String × ExchangePositionView))) :
    RiskState :=
  { s with
      last_positions :=
        fetched.foldl (fun m p => dictSet m p.1 p.2) s.last_positions }

/-- The state effect of `RiskManager.handle_liquidation(...)` at instant
`now`: pause the surviving symbol for 1 hour (the market close of the
surviving leg and the alert are venue side effects; the pause happens even
when the close raises). -/
def handle_liquidation (s : RiskState) (surviving_symbol : String)
    (now : ℚ) : RiskState :=
  pause_pair s surviving_symbol now 1

/-- One public `RiskManager` operation, with the instants and venue
observations it consumes. -/
inductive RiskOp where
  | activate (now : ℚ)
  | deactivate
  | pausePair (symbol : String) (now cooldown_hours : ℚ)
  | isPairPaused (symbol : String) (now : ℚ)
  | canOpenPosition (symbol : String) (size_usd now : ℚ)
  | checkForLiquidations
      (fetched : List (String × List (String × ExchangePositionView)))
  | handleLiquidation (surviving_symbol : String) (now : ℚ)
deriving DecidableEq, Repr

/-- State transition of one `RiskManager` operation. -/
def riskStep (max_position_per_pair_usd : ℚ) (s : RiskState) :
    RiskOp → RiskState
  | .activate now => activate_kill_switch s now
  | .deactivate => deactivate_kill_switch s
  | .pausePair symbol now cooldown => pause_pair s symbol now cooldown
  | .isPairPaused symbol now => (is_pair_paused s symbol now).1
  | .canOpenPosition symbol size_usd now =>
    (can_open_position max_position_per_pair_usd s symbol size_usd now).1
  | .checkForLiquidations fetched => check_for_liquidations s fetched
  | .handleLiquidation symbol now => handle_liquidation s symbol now

end FundingArb

namespace FundingArb

/-! ### Coordinator (`backend/engine/coordinator.py`) -/

/-- `EngineState` enum from `backend/engine/coordinator.py`. -/
inductive EngineState where
  | STOPPED
  | STARTING
  | RUNNING
  | STOPPING
  | ERROR
deriving DecidableEq, Repr

/-- The attribute names defined on the `FundingRateScanner` class in
`backend/engine/scanner.py`: the class variable, the instance attributes
bound in `__init__`, the methods and the properties. -/
def fundingRateScannerAttrs : List String :=
  ["POLL_INTERVAL", "exchanges", "_running", "_rates", "_on_rates_callback",
   "_symbols", "_last_update", "_poll_task",
   "start", "stop", "_poll_loop", "_fetch_all_rates",
   "get_rates", "get_rates_for_symbol", "get_rate",
   "get_next_funding_time", "get_time_to_funding",
   "is_running", "monitored_symbols", "get_exchange_status"]

/-- The attribute `TradingCoordinator.start` accesses on the scanner right
after `scanner.start(self.config.symbols)`:
`self.scanner.on_update(self._on_rates_update)`. -/
def coordinatorScannerCallbackAttr : String := "on_update"

/-- `TradingCoordinator.start()` as a state transition.  From any state
other than `STOPPED`, an early return with a warning.  From `STOPPED`, the
state becomes `STARTING` and the `try` body runs: `scanner.start(symbols)`
(which succeeds: venue errors are swallowed inside `_fetch_all_rates`),
then the attribute access `self.scanner.on_update`, which raises
`AttributeError` when the scanner class has no such attribute; any
exception sets the state to `ERROR`, records the message and re-raises.
Only when the body completes does the state become `RUNNING`. -/
def coordinator_start (state : EngineState) :
    EngineState × Except String Unit :=
  if state ≠ .STOPPED then (state, .ok ())
  else if fundingRateScannerAttrs.contains coordinatorScannerCallbackAttr then
    (.RUNNING, .ok ())
  else
    (.ERROR,
     .error "AttributeError: FundingRateScanner has no attribute on_update")

/-- Binding check for a Python call made purely with keyword arguments:
the call succeeds iff every keyword names a declared parameter and every
parameter without a default receives a keyword.  `TypeError` otherwise. -/
def kwargsBind (params : List String) (kwargs : List String) : Bool :=
  kwargs.all (fun k => params.contains k) &&
    params.all (fun p => kwargs.contains p)

/-- The parameters of `PositionManager.record_funding_payment` after
`self` (`backend/engine/position_manager.py`); none has a default. -/
def record_funding_payment_params : List String :=
  ["position_id", "exchange", "side", "funding_rate", "payment_usd",
   "position_size"]

/-- The keywords of the `position_manager.record_funding_payment(...)` call
in `TradingCoordinator._check_funding_payment`
(`backend/engine/coordinator.py`). -/
def coordinator_record_funding_kwargs : List String :=
  ["position_id", "exchange", "rate", "payment_usd"]

/-- The funding payment computed by
`TradingCoordinator._check_funding_payment` for one leg:
`payment = rate * (size or 0)`, negated when the leg is the short one. -/
def coordinator_funding_payment (rate : ℚ) (size : Option ℚ)
    (is_short : Bool) : ℚ :=
  let payment := rate * size.getD 0
  if is_short then -payment else payment

/-- The `funding_events` table row (`FundingEvent` model in
`backend/database/models.py`; timestamps abstracted away). -/
structure FundingEvent where
  position_id : String
  exchange : String
  pair : String
  side : DbOrderSide
  funding_rate : ℚ
  payment_usd : ℚ
  position_size : ℚ
deriving DecidableEq, Repr

/-- `PositionManager.record_funding_payment` applied to the row looked up
by `position_id`: inserts the `FundingEvent` and adds `payment_usd` to
`Position.funding_collected` in the same transaction. -/
def record_funding_payment (position : Option Position) (exchange : String)
    (side : DbOrderSide) (funding_rate payment_usd position_size : ℚ) :
    Except String (Position × FundingEvent) :=
  match position with
  | none => .error "Position not found"
  | some position =>
    .ok
      ({ position with
          funding_collected := position.funding_collected + payment_usd },
        { position_id := position.id
          exchange := exchange
          pair := position.pair
          side := side
          funding_rate := funding_rate
          payment_usd := payment_usd
          position_size := position_size })

end FundingArb

namespace FundingArb

/-! ### Concrete instances used by witnesses and counterexamples -/

/-- A concrete trading config (the detector-relevant fields, at the
repository's documented defaults). -/
def cfg0 : TradingConfig :=
  { min_daily_spread_base := 3/10000
    min_daily_spread_per_10k := 3/100000
    negative_spread_tolerance := -1/10000 }

/-- A concrete rate snapshot: one symbol quoted on two venues. -/
def rates0 : RateSnapshot :=
  [("binance",
    [("BTC/USDT:USDT",
      { exchange := "binance", symbol := "BTC/USDT:USDT", rate := 20/10000,
        predicted_rate := none, next_funding_time := 1800,
        timestamp := 0 })]),
   ("bybit",
    [("BTC/USDT:USDT",
      { exchange := "bybit", symbol := "BTC/USDT:USDT", rate := -5/10000,
        predicted_rate := none, next_funding_time := 1800,
        timestamp := 0 })])]

/-- The opportunity the detector derives from `rates0` at size 10000 USD. -/
def opp0 : ArbitrageOpportunity :=
  { symbol := "BTC/USDT:USDT"
    long_exchange := "bybit"
    short_exchange := "binance"
    long_interval_hours := 8
    short_interval_hours := 8
    long_rate := -5/10000
    short_rate := 20/10000
    long_daily_rate := -15/10000
    short_daily_rate := 60/10000
    daily_spread := 75/10000
    spread := 25/10000
    expected_daily_profit := 509/7
    annualized_apr := 37157/140
    next_funding_time := 1800
    seconds_to_funding := 1800
    detected_at := 0 }

/-- A concrete order book on the long venue (top-5 ask depth 3). -/
def longBook0 : OrderBook :=
  { exchange := "bybit", symbol := "BTC/USDT:USDT"
    bids := [{ price := 99, size := 1 }]
    asks := [{ price := 100, size := 1 }, { price := 101, size := 2 }]
    timestamp := 0 }

/-- A concrete order book on the short venue (top-5 bid depth 5). -/
def shortBook0 : OrderBook :=
  { exchange := "binance", symbol := "BTC/USDT:USDT"
    bids := [{ price := 100, size := 2 }, { price := 99, size := 3 }]
    asks := [{ price := 101, size := 1 }]
    timestamp := 0 }

/-- A filled first-leg order result. -/
def firstFill0 : OrderResult :=
  { order_id := "o-1", exchange := "bybit", symbol := "BTC/USDT:USDT",
    side := .BUY, order_type := .LIMIT, status := .FILLED, size := 1/2,
    filled_size := 1/2, price := some (199/2), average_price := some 100,
    fee := 1 }

/-- An entry run in which the first leg fills and the second leg never
fills (`_execute_with_timeout` returns `None`). -/
def entryEnv0 : EntryEnv :=
  { long_book := longBook0
    short_book := shortBook0
    first_leg_result := some firstFill0
    refreshed_second_book := shortBook0
    second_leg_result := none
    emergency_close_raises := false }

/-- A filled long-leg entry order. -/
def longOpen0 : OrderResult :=
  { order_id := "o-long", exchange := "bybit", symbol := "BTC/USDT:USDT",
    side := .BUY, order_type := .LIMIT, status := .FILLED, size := 1/2,
    filled_size := 1/2, price := some 100, average_price := some 100,
    fee := 1 }

/-- A filled short-leg entry order. -/
def shortOpen0 : OrderResult :=
  { order_id := "o-short", exchange := "binance", symbol := "BTC/USDT:USDT",
    side := .SELL, order_type := .LIMIT, status := .FILLED, size := 1/2,
    filled_size := 1/2, price := some 101, average_price := some 101,
    fee := 2 }

/-- A successful two-leg execution result. -/
def exec0 : ExecutionResult :=
  { success := true, long_order := some longOpen0,
    short_order := some shortOpen0 }

/-- An OPEN position with truthy entry prices and sizes. -/
def posOpen0 : Position :=
  { id := "p-1", pair := "BTC/USDT:USDT", long_exchange := "bybit",
    short_exchange := "binance", long_entry_price := some 100,
    short_entry_price := some 100, size_usd := 10000, long_size := some 1,
    short_size := some 1, funding_collected := 7, total_fees := 4,
    status := .OPEN }

/-- A close order for the long leg that carries no price at all
(`average_price = None`, `price = None`, as a MARKET order result may). -/
def longCloseNoPrice : OrderResult :=
  { order_id := "c-long", exchange := "bybit", symbol := "BTC/USDT:USDT",
    side := .SELL, order_type := .MARKET, status := .FILLED, size := 1,
    filled_size := 1, price := none, average_price := none, fee := 0 }

/-- A close order for the long leg filled at 110. -/
def longClose0 : OrderResult :=
  { order_id := "c-long", exchange := "bybit", symbol := "BTC/USDT:USDT",
    side := .SELL, order_type := .MARKET, status := .FILLED, size := 1,
    filled_size := 1, price := none, average_price := some 110, fee := 1 }

/-- A close order for the short leg filled at 95. -/
def shortClose0 : OrderResult :=
  { order_id := "c-short", exchange := "binance", symbol := "BTC/USDT:USDT",
    side := .BUY, order_type := .MARKET, status := .FILLED, size := 1,
    filled_size := 1, price := none, average_price := some 95, fee := 2 }

/-- A close order for the short leg filled at 90, fee 0. -/
def shortClose90 : OrderResult :=
  { order_id := "c-short", exchange := "binance", symbol := "BTC/USDT:USDT",
    side := .BUY, order_type := .MARKET, status := .FILLED, size := 1,
    filled_size := 1, price := none, average_price := some 90, fee := 0 }

/-- A position with no funding and no fees, entries 100/100, sizes 1/1. -/
def posPlain0 : Position :=
  { id := "p-2", pair := "BTC/USDT:USDT", long_exchange := "bybit",
    short_exchange := "binance", long_entry_price := some 100,
    short_entry_price := some 100, size_usd := 10000, long_size := some 1,
    short_size := some 1, funding_collected := 0, total_fees := 0,
    status := .OPEN }

/-- A sequence of non-`deactivate` risk operations. -/
def riskOps0 : List RiskOp :=
  [.pausePair "BTC/USDT:USDT" 0 1,
   .isPairPaused "BTC/USDT:USDT" 10,
   .canOpenPosition "BTC/USDT:USDT" 1000 20,
   .checkForLiquidations [],
   .handleLiquidation "BTC/USDT:USDT" 30,
   .activate 40]

end FundingArb

namespace FundingArb

/-- Projection used to inspect a `close_position` outcome: the persisted
`realized_pnl`. -/
def closedRealized (r : Except String (Position × List Trade)) : Option ℚ :=
  (closedRow r).bind (·.realized_pnl)

/-- Projection used to inspect a `close_position` outcome: the persisted
`long_close_price`. -/
def closedLongClose (r : Except String (Position × List Trade)) :
    Option (Option ℚ) :=
  (closedRow r).map (·.long_close_price)

/-- The first order `execute_entry` places in the run `entryEnv0`:
a LIMIT BUY on the long venue at its mid `199/2` for
`10000 / (199/2) = 20000/199` contracts. -/
def firstOrder0 : PlacedOrder :=
  { exchange := "bybit", symbol := "BTC/USDT:USDT", side := .BUY,
    order_type := .LIMIT, size := 20000/199, price := some (199/2),
    reduce_only := false }

/-- The emergency close `execute_entry` submits in the run `entryEnv0`. -/
def emergOrder0 : PlacedOrder :=
  { exchange := "bybit", symbol := "BTC/USDT:USDT", side := .SELL,
    order_type := .MARKET, size := 1/2, price := none,
    reduce_only := true }

/-- A successful two-leg close execution (110 long, 95 short). -/
def execClose0 : ExecutionResult :=
  { success := true, long_order := some longClose0,
    short_order := some shortClose0 }

/-- A close execution whose long order carries no price at all. -/
def execNoLongPrice : ExecutionResult :=
  { success := true, long_order := some longCloseNoPrice,
    short_order := some shortClose90 }

/-- A close execution missing the long leg entirely. -/
def execLongMissing : ExecutionResult :=
  { success := false, long_order := none,
    short_order := some shortClose0 }

/-- A close execution missing the short leg entirely. -/
def execShortMissing : ExecutionResult :=
  { success := false, long_order := some longClose0,
    short_order := none }

end FundingArb


theorem mem_insertSorted (r : α → α → Prop) [DecidableRel r] (x y : α)
    (l : List α) : y ∈ insertSorted r x l ↔ y = x ∨ y ∈ l := by
  induction l with
  | nil => simp [insertSorted]
  | cons z zs ih =>
    by_cases h : r z x
    · simp only [insertSorted, if_pos h, List.mem_cons, ih]
      tauto
    · simp only [insertSorted, if_neg h, List.mem_cons]

theorem mem_sortList (r : α → α → Prop) [DecidableRel r] (y : α)
    (l : List α) : y ∈ sortList r l ↔ y ∈ l := by
  induction l with
  | nil => simp [sortList]
  | cons z zs ih => simp [sortList, mem_insertSorted, ih]

theorem pairwise_insertSorted (r : α → α → Prop) [DecidableRel r]
    (total : ∀ a b, r a b ∨ r b a) (htrans : Transitive r) (x : α)
    (l : List α) (h : l.Pairwise r) : (insertSorted r x l).Pairwise r := by
  induction l with
  | nil => simp [insertSorted]
  | cons z zs ih =>
    rcases List.pairwise_cons.mp h with ⟨hz, hzs⟩
    by_cases hzx : r z x
    · simp only [insertSorted, if_pos hzx]
      refine List.pairwise_cons.mpr ⟨?_, ih hzs⟩
      intro a ha
      rcases (mem_insertSorted r x a zs).mp ha with rfl | ha
      · exact hzx
      · exact hz a ha
    · simp only [insertSorted, if_neg hzx]
      have hxz : r x z := (total z x).resolve_left hzx
      refine List.pairwise_cons.mpr ⟨?_, h⟩
      intro a ha
      rcases List.mem_cons.mp ha with rfl | ha
      · exact hxz
      · exact htrans hxz (hz a ha)

theorem pairwise_sortList (r : α → α → Prop) [DecidableRel r]
    (total : ∀ a b, r a b ∨ r b a) (htrans : Transitive r)
    (l : List α) : (sortList r l).Pairwise r := by
  induction l with
  | nil => simp [sortList]
  | cons z zs ih => exact pairwise_insertSorted r total htrans z _ ih

namespace FundingArb

/-! ## Claims -/

/-- C1: the claim says every `FundingRate` has a `daily_rate` attribute equal
to `rate × 24 / interval_hours`, making the detector's sort well-defined.
In `backend/exchanges/types.py` the `FundingRate` class defines no such
attribute (only `rate_percent` and `annualized_rate` beyond its fields), so
the attribute access `x[1].daily_rate` performed by the detector's sort key
raises `AttributeError` on every `FundingRate`; the repository's own test
`tests/unit/test_scanner.py` asserts the attribute exists. -/
theorem C1_daily_rate_attribute_missing :
    detectorSortKeyAttr = "daily_rate" ∧
    fundingRateAttrs.contains detectorSortKeyAttr = false := by
  exact ⟨rfl, by decide⟩

/-- C9: the claim says `start()` from `STOPPED` reaches `RUNNING` with the
scanner's rates callback wired to `on_rates_update`.  In
`backend/engine/coordinator.py`, `start` calls
`self.scanner.on_update(self._on_rates_update)`, but `FundingRateScanner`
(`backend/engine/scanner.py`) defines no `on_update` attribute, so the
access raises `AttributeError` inside the `try` and the state becomes
`ERROR` with the exception re-raised; `start()` never reaches `RUNNING`.
From any state other than `STOPPED`, `start()` is a warning no-op, as the
claim says. -/
theorem C9_start_always_errors :
    coordinator_start .STOPPED =
      (.ERROR,
       .error
         "AttributeError: FundingRateScanner has no attribute on_update") ∧
    fundingRateScannerAttrs.contains coordinatorScannerCallbackAttr =
      false ∧
    coordinator_start .STARTING = (.STARTING, .ok ()) ∧
    coordinator_start .RUNNING = (.RUNNING, .ok ()) ∧
    coordinator_start .STOPPING = (.STOPPING, .ok ()) ∧
    coordinator_start .ERROR = (.ERROR, .ok ()) := by
  refine ⟨?_, by decide, rfl, rfl, rfl, rfl⟩
  rfl

/-- C6: the claim says the funding loop records each funding tick via
`PositionManager.record_funding_payment` with `payment_usd = ±rate ×
leg_size`.  The sign convention computed by
`TradingCoordinator._check_funding_payment` does match the claim, but the
call it then makes —
`record_funding_payment(position_id=…, exchange=…, rate=…, payment_usd=…)` —
does not bind to the method's parameters
`(position_id, exchange, side, funding_rate, payment_usd, position_size)`,
none of which has a default: the keyword `rate` is unexpected and `side` /
`funding_rate` / `position_size` are missing, so the call raises
`TypeError` on every funding tick (swallowed by the surrounding
`except Exception`), and no funding event is ever recorded. -/
theorem C6_funding_recording_call_never_binds :
    kwargsBind record_funding_payment_params
      coordinator_record_funding_kwargs = false ∧
    (∀ rate size, coordinator_funding_payment rate size false =
      rate * size.getD 0) ∧
    (∀ rate size, coordinator_funding_payment rate size true =
      -(rate * size.getD 0)) := by
  refine ⟨by decide, fun rate size => rfl, fun rate size => rfl⟩

/-- C5: the claim says `create_position` atomically enforces the
one-open-position-per-pair invariant, so a second create for a pair with an
OPEN position fails and leaves the store unchanged.  The code has no such
enforcement: `PositionManager.create_position` performs no lookup for an
existing OPEN position, and `Position.__table_args__` declares only plain
non-unique indexes, so the second insert succeeds and the store ends with
two OPEN positions for the same pair. -/
theorem C5_second_create_succeeds_and_duplicates :
    positionsTableIndexes.all (fun i => i.2.2 == false) = true ∧
    (do
      let (s1, _, _) ← create_position [] opp0 exec0 10000 none none "pos-1"
      let (s2, _, _) ←
        create_position s1 opp0 exec0 10000 none none "pos-2"
      pure (get_open_position_for_pair s2 "BTC/USDT:USDT").length) =
      Except.ok 2 := by
  exact ⟨by decide, rfl⟩

end FundingArb

namespace FundingArb

/-- C2: every opportunity returned by `find_opportunities` is for a symbol
with rates on at least two venues, has `daily_spread = short_daily_rate −
long_daily_rate` at least `threshold(size_usd)`, and has strictly positive
`net_daily = size_usd × daily_spread − fees / 7` where `fees` are the
round-trip taker fees of both legs; the returned list is sorted by
`daily_spread` descending.  (`FundingRate.daily_rate` is spec-modelled; see
C1.) -/
theorem C2_find_opportunities_sound
    (cfg : TradingConfig) (feeTiers : FeeTable) (rates : RateSnapshot)
    (position_size_usd now min_seconds : ℚ) :
    (∀ opp ∈ find_opportunities cfg feeTiers rates position_size_usd now
        min_seconds,
        2 ≤ (symbolRates rates opp.symbol).length ∧
        calculate_threshold cfg position_size_usd ≤ opp.daily_spread ∧
        opp.daily_spread = opp.short_daily_rate - opp.long_daily_rate ∧
        0 < position_size_usd * opp.daily_spread -
              calculate_fees feeTiers position_size_usd opp.long_exchange
                opp.short_exchange / 7) ∧
    (find_opportunities cfg feeTiers rates position_size_usd now
        min_seconds).Pairwise dailySpreadGE := by
  constructor
  · intro opp h
    unfold find_opportunities at h
    rw [mem_sortList] at h
    obtain ⟨s, hs, hps⟩ := List.mem_filterMap.mp h
    unfold processSymbol at hps
    dsimp only at hps
    split at hps
    · exact absurd hps (by simp)
    · rename_i hlen
      split at hps
      · rename_i long_exchange long_rate_obj short_exchange short_rate_obj
          heq1 heq2
        split at hps
        · exact absurd hps (by simp)
        · rename_i hthresh
          split at hps
          · exact absurd hps (by simp)
          · split at hps
            · exact absurd hps (by simp)
            · rename_i htime hnet
              obtain rfl := Option.some_injective _ hps
              dsimp only
              exact ⟨by omega, not_lt.mp hthresh, rfl, not_le.mp hnet⟩
      · exact absurd hps (by simp)
  · unfold find_opportunities
    apply pairwise_sortList
    · intro a b
      exact le_total b.daily_spread a.daily_spread
    · intro a b c h1 h2
      exact le_trans h2 h1

/-- Witness for C2 at the concrete snapshot `rates0`, size 10000 USD:
`opp0` is returned and satisfies the admission conditions. -/
theorem C2_witness :
    opp0 ∈ find_opportunities cfg0 [] rates0 10000 0 60 ∧
    (2 ≤ (symbolRates rates0 opp0.symbol).length ∧
      calculate_threshold cfg0 10000 ≤ opp0.daily_spread ∧
      opp0.daily_spread = opp0.short_daily_rate - opp0.long_daily_rate ∧
      0 < 10000 * opp0.daily_spread -
            calculate_fees [] 10000 opp0.long_exchange opp0.short_exchange /
              7) := by
  have hlist : find_opportunities cfg0 [] rates0 10000 0 60 = [opp0] := by
    norm_num [find_opportunities, processSymbol, symbolRates, allSymbols,
      sortList, insertSorted, calculate_threshold, calculate_fees,
      FundingRate.daily_rate, dailyRateLE, dailySpreadGE, cfg0, rates0,
      opp0, List.lookup, List.dedup, List.getLast?, List.filterMap_cons,
      List.filterMap_nil]
  have hmem : opp0 ∈ find_opportunities cfg0 [] rates0 10000 0 60 := by
    rw [hlist]
    exact List.mem_singleton.mpr rfl
  exact ⟨hmem,
    (C2_find_opportunities_sound cfg0 [] rates0 10000 0 60).1 opp0 hmem⟩

end FundingArb

namespace FundingArb

/-- C3: whenever `execute_entry` reaches order placement (its order trace is
nonempty), the first order placed is on the venue whose top-5 depth on the
side that leg must cross is smaller (asks for the long leg, bids for the
short leg), and on a depth tie the long leg is placed first. -/
theorem C3_lower_depth_leg_first (opp : ArbitrageOpportunity)
    (size_usd : ℚ) (env : EntryEnv) (o : PlacedOrder)
    (h : (execute_entry opp size_usd env).2.head? = some o) :
    (env.long_book.get_depth "ask" 5 < env.short_book.get_depth "bid" 5 →
       o.exchange = opp.long_exchange ∧ o.side = .BUY) ∧
    (env.short_book.get_depth "bid" 5 < env.long_book.get_depth "ask" 5 →
       o.exchange = opp.short_exchange ∧ o.side = .SELL) ∧
    (env.long_book.get_depth "ask" 5 = env.short_book.get_depth "bid" 5 →
       o.exchange = opp.long_exchange ∧ o.side = .BUY) := by
  have hfirst :
      o.exchange =
        (if firstLegIsLong env.long_book env.short_book then
          opp.long_exchange else opp.short_exchange) ∧
      o.side =
        (if firstLegIsLong env.long_book env.short_book then
          OrderSide.BUY else OrderSide.SELL) := by
    unfold execute_entry at h
    dsimp only at h
    split at h
    · split at h
      · simp only [List.head?_cons, Option.some.injEq] at h
        subst h
        exact ⟨rfl, rfl⟩
      · split at h
        · simp only [List.head?_cons, Option.some.injEq] at h
          subst h
          exact ⟨rfl, rfl⟩
        · split at h
          · simp only [List.cons_append, List.head?_cons,
              Option.some.injEq] at h
            subst h
            exact ⟨rfl, rfl⟩
          · split at h
            · simp only [List.cons_append, List.head?_cons,
                Option.some.injEq] at h
              subst h
              exact ⟨rfl, rfl⟩
            · split at h
              · simp only [List.cons_append, List.head?_cons,
                  Option.some.injEq] at h
                subst h
                exact ⟨rfl, rfl⟩
              · simp only [List.head?_cons, Option.some.injEq] at h
                subst h
                exact ⟨rfl, rfl⟩
    · simp at h
  obtain ⟨he, hs⟩ := hfirst
  refine ⟨?_, ?_, ?_⟩
  · intro hlt
    have hc : firstLegIsLong env.long_book env.short_book = true := by
      simp only [firstLegIsLong, decide_eq_true_eq]
      exact le_of_lt hlt
    rw [hc, if_pos rfl] at he hs
    exact ⟨he, hs⟩
  · intro hgt
    have hc : firstLegIsLong env.long_book env.short_book = false := by
      simp only [firstLegIsLong, decide_eq_false_iff_not]
      exact not_le.mpr hgt
    rw [hc] at he hs
    simp only [Bool.false_eq_true, if_false] at he hs
    exact ⟨he, hs⟩
  · intro heq
    have hc : firstLegIsLong env.long_book env.short_book = true := by
      simp only [firstLegIsLong, decide_eq_true_eq]
      exact le_of_eq heq
    rw [hc, if_pos rfl] at he hs
    exact ⟨he, hs⟩

set_option maxHeartbeats 2000000 in
/-- Witness for C3: in the run `entryEnv0` the long-venue ask depth (3) is
below the short-venue bid depth (5), and the first order placed is the BUY
on the long venue. -/
theorem C3_witness :
    (execute_entry opp0 10000 entryEnv0).2.head? = some firstOrder0 ∧
    longBook0.get_depth "ask" 5 < shortBook0.get_depth "bid" 5 ∧
    firstOrder0.exchange = opp0.long_exchange ∧
    firstOrder0.side = .BUY := by
  have hLF : firstLegIsLong longBook0 shortBook0 = true := by
    simp [firstLegIsLong, OrderBook.get_depth, longBook0, shortBook0]
    norm_num
  have hmidl : longBook0.mid_price = some (199/2) := by
    simp [OrderBook.mid_price, OrderBook.best_bid, OrderBook.best_ask,
      truthyQ, longBook0]
    norm_num
  have hmids : shortBook0.mid_price = some (201/2) := by
    simp [OrderBook.mid_price, OrderBook.best_bid, OrderBook.best_ask,
      truthyQ, shortBook0]
    norm_num
  have hhead :
      (execute_entry opp0 10000 entryEnv0).2.head? = some firstOrder0 := by
    show (execute_entry opp0 10000
      { long_book := longBook0, short_book := shortBook0,
        first_leg_result := some firstFill0,
        refreshed_second_book := shortBook0, second_leg_result := none,
        emergency_close_raises := false }).2.head? = some firstOrder0
    unfold execute_entry
    dsimp only
    rw [hLF]
    simp only [if_true, hmidl, hmids, OrderResult.is_filled, firstFill0,
      beq_self_eq_true, not_true, Bool.not_eq_true, if_false]
    norm_num [firstOrder0, opp0]
  have hlt : longBook0.get_depth "ask" 5 < shortBook0.get_depth "bid" 5 := by
    simp [OrderBook.get_depth, longBook0, shortBook0]
    norm_num
  have h :=
    (C3_lower_depth_leg_first opp0 10000 entryEnv0 firstOrder0 hhead).1 hlt
  exact ⟨hhead, hlt, h.1, h.2⟩

end FundingArb

namespace FundingArb

/-- C4: in every `execute_entry` run whose first leg fills and whose second
leg does not fill — or whose refreshed second-venue book has no mid price —
the executor submits exactly one `reduce_only` MARKET order, on the first
venue, for the first filled size, on the opposite side; the result has
`success = false`, with error `"Second leg failed, first leg closed"` in the
unfilled case; and the result is unchanged whether or not the emergency
close raises (the exception is caught). -/
theorem C4_second_leg_failure_unwinds (opp : ArbitrageOpportunity)
    (size_usd : ℚ) (env : EntryEnv) (first_result : OrderResult)
    (hmid_long : env.long_book.mid_price.isSome = true)
    (hmid_short : env.short_book.mid_price.isSome = true)
    (hfirst : env.first_leg_result = some first_result)
    (hfilled : first_result.is_filled = true)
    (hsecond : env.refreshed_second_book.mid_price = none ∨
      env.second_leg_result = none ∨
      (∃ r, env.second_leg_result = some r ∧ r.is_filled = false)) :
    (execute_entry opp size_usd env).1.success = false ∧
    ((execute_entry opp size_usd env).2.filter (·.reduce_only)) =
      [{ exchange :=
           if firstLegIsLong env.long_book env.short_book then
             opp.long_exchange
           else opp.short_exchange
         symbol := opp.symbol
         side :=
           (if firstLegIsLong env.long_book env.short_book then
             OrderSide.BUY
           else OrderSide.SELL).opposite
         order_type := .MARKET
         size := first_result.filled_size
         price := none
         reduce_only := true }] ∧
    ((∃ r, env.refreshed_second_book.mid_price = some r) →
      (execute_entry opp size_usd env).1.error_message =
        some "Second leg failed, first leg closed") ∧
    (∀ b, execute_entry opp size_usd
        { env with emergency_close_raises := b } =
      execute_entry opp size_usd env) := by
  obtain ⟨pl, hpl⟩ := Option.isSome_iff_exists.mp hmid_long
  obtain ⟨ps, hps⟩ := Option.isSome_iff_exists.mp hmid_short
  have hlast : ∀ b, execute_entry opp size_usd
      { env with emergency_close_raises := b } =
      execute_entry opp size_usd env := by
    intro b
    cases env
    rfl
  refine ⟨?_, ?_, ?_, hlast⟩
  · unfold execute_entry
    dsimp only
    by_cases hLF : firstLegIsLong env.long_book env.short_book <;>
      simp only [hLF, if_true, if_false, Bool.false_eq_true, hpl, hps,
        hfirst, hfilled, not_true, Bool.not_eq_true] <;>
      rcases hsecond with hmidnone | hsec | ⟨r, hr, hrf⟩ <;>
      rcases hm2 : env.refreshed_second_book.mid_price with _ | p2 <;>
      simp_all [emergency_close]
  · unfold execute_entry
    dsimp only
    by_cases hLF : firstLegIsLong env.long_book env.short_book <;>
      simp only [hLF, if_true, if_false, Bool.false_eq_true, hpl, hps,
        hfirst, hfilled, not_true, Bool.not_eq_true] <;>
      rcases hsecond with hmidnone | hsec | ⟨r, hr, hrf⟩ <;>
      rcases hm2 : env.refreshed_second_book.mid_price with _ | p2 <;>
      simp_all [emergency_close, List.filter]
  · rintro ⟨p2, hp2⟩
    unfold execute_entry
    dsimp only
    by_cases hLF : firstLegIsLong env.long_book env.short_book <;>
      simp only [hLF, if_true, if_false, Bool.false_eq_true, hpl, hps,
        hfirst, hfilled, not_true, Bool.not_eq_true] <;>
      rcases hsecond with hmidnone | hsec | ⟨r, hr, hrf⟩ <;>
      simp_all [emergency_close]

set_option maxHeartbeats 2000000 in
/-- Witness for C4: in the run `entryEnv0` (first leg filled, second leg
never fills) the executor ends with a failure carrying the documented
error, having submitted exactly one reduce-only MARKET close on the first
venue. -/
theorem C4_witness :
    (execute_entry opp0 10000 entryEnv0).1.success = false ∧
    ((execute_entry opp0 10000 entryEnv0).2.filter (·.reduce_only)) =
      [emergOrder0] ∧
    (execute_entry opp0 10000 entryEnv0).1.error_message =
      some "Second leg failed, first leg closed" := by
  have hLF : firstLegIsLong longBook0 shortBook0 = true := by
    simp [firstLegIsLong, OrderBook.get_depth, longBook0, shortBook0]
    norm_num
  have hmidl : longBook0.mid_price = some (199/2) := by
    simp [OrderBook.mid_price, OrderBook.best_bid, OrderBook.best_ask,
      truthyQ, longBook0]
    norm_num
  have hmids : shortBook0.mid_price = some (201/2) := by
    simp [OrderBook.mid_price, OrderBook.best_bid, OrderBook.best_ask,
      truthyQ, shortBook0]
    norm_num
  have h := C4_second_leg_failure_unwinds opp0 10000 entryEnv0 firstFill0
    (by rw [show entryEnv0.long_book.mid_price = some (199/2) from hmidl]
        rfl)
    (by rw [show entryEnv0.short_book.mid_price = some (201/2) from hmids]
        rfl)
    rfl rfl (Or.inr (Or.inl rfl))
  refine ⟨h.1, ?_, h.2.2.1 ⟨201/2, hmids⟩⟩
  have h2 := h.2.1
  rw [show firstLegIsLong entryEnv0.long_book entryEnv0.short_book = true
    from hLF] at h2
  simpa [OrderSide.opposite, emergOrder0, firstFill0, opp0] using h2

end FundingArb

namespace FundingArb

/-- C7 (amended): for every successful `close_position` on an OPEN position
with both leg results present, **provided each leg has a truthy entry price
and size and a nonzero resolved close price** (`average_price or price`),
the persisted `realized_pnl` equals `(long_close − long_entry) × long_size +
(short_entry − short_close) × short_size + funding_collected − total_fees`,
where `total_fees` is the entry fees already on the position plus the close
orders' fees.  A leg whose entry price, size or resolved close price is
missing or zero contributes 0 instead (see the counterexample). -/
theorem C7_realized_pnl_formula (p : Position) (execution : ExecutionResult)
    (lo so : OrderResult)
    (hopen : p.status = .OPEN)
    (hlo : execution.long_order = some lo)
    (hso : execution.short_order = some so)
    (hlep : truthyQ p.long_entry_price = true)
    (hsep : truthyQ p.short_entry_price = true)
    (hls : truthyQ p.long_size = true)
    (hss : truthyQ p.short_size = true)
    (hlcp : pyOrQ lo.average_price lo.price ≠ 0)
    (hscp : pyOrQ so.average_price so.price ≠ 0) :
    ∃ q trades, close_position (some p) execution = .ok (q, trades) ∧
      q.realized_pnl = some
        ((pyOrQ lo.average_price lo.price - p.long_entry_price.getD 0) *
            p.long_size.getD 0 +
          (p.short_entry_price.getD 0 - pyOrQ so.average_price so.price) *
            p.short_size.getD 0 +
          p.funding_collected - (p.total_fees + (lo.fee + so.fee))) ∧
      q.total_fees = p.total_fees + (lo.fee + so.fee) ∧
      q.status = .CLOSED := by
  unfold close_position
  dsimp only
  simp only [Position.is_open, hopen, hlo, hso, beq_self_eq_true,
    not_true, Bool.not_eq_true, if_false]
  refine ⟨_, _, rfl, ?_, rfl, rfl⟩
  simp [hlep, hls, hsep, hss, hlcp, hscp]

/-- Counterexample for C7 as stated: closing `posPlain0` (entries 100/100,
sizes 1/1, no funding, no fees) with both leg results present but the long
close order carrying no price (`average_price = None`, `price = None`)
persists `long_close_price = 0` and `realized_pnl = 10` — the long leg is
skipped — whereas the claimed formula evaluated at the persisted close
price 0 gives `(0 − 100)·1 + (100 − 90)·1 + 0 − 0 = −90`. -/
theorem C7_counterexample_missing_price :
    closedRealized (close_position (some posPlain0) execNoLongPrice) =
      some 10 ∧
    closedLongClose (close_position (some posPlain0) execNoLongPrice) =
      some (some 0) ∧
    ((0 : ℚ) - posPlain0.long_entry_price.getD 0) *
        posPlain0.long_size.getD 0 +
      (posPlain0.short_entry_price.getD 0 -
          pyOrQ shortClose90.average_price shortClose90.price) *
        posPlain0.short_size.getD 0 +
      posPlain0.funding_collected - posPlain0.total_fees = -90 ∧
    (some (10 : ℚ) : Option ℚ) ≠ some (-90 : ℚ) := by
  refine ⟨?_, ?_, by norm_num [posPlain0, shortClose90, pyOrQ, truthyQ],
    by norm_num⟩
  · unfold closedRealized closedRow close_position
    dsimp only
    norm_num [posPlain0, execNoLongPrice, longCloseNoPrice, shortClose90,
      Position.is_open, pyOrQ, truthyQ, record_trade]
  · unfold closedLongClose closedRow close_position
    dsimp only
    norm_num [posPlain0, execNoLongPrice, longCloseNoPrice, shortClose90,
      Position.is_open, pyOrQ, truthyQ, record_trade]

/-- Witness for C7 (amended) at `posOpen0` closed by `execClose0`:
realized P&L `(110−100)·1 + (100−95)·1 + 7 − (4+1+2) = 15`. -/
theorem C7_witness :
    posOpen0.status = .OPEN ∧
    (∃ q trades,
      close_position (some posOpen0) execClose0 = .ok (q, trades) ∧
      q.realized_pnl = some 15 ∧
      q.total_fees = 7 ∧
      q.status = .CLOSED) := by
  have h := C7_realized_pnl_formula posOpen0 execClose0 longClose0
    shortClose0 rfl rfl rfl
    (by norm_num [truthyQ, posOpen0])
    (by norm_num [truthyQ, posOpen0])
    (by norm_num [truthyQ, posOpen0])
    (by norm_num [truthyQ, posOpen0])
    (by norm_num [pyOrQ, truthyQ, longClose0])
    (by norm_num [pyOrQ, truthyQ, shortClose0])
  obtain ⟨q, trades, heq, hr, hf, hs⟩ := h
  refine ⟨rfl, q, trades, heq, ?_, ?_, hs⟩
  · rw [hr]
    norm_num [posOpen0, longClose0, shortClose0, pyOrQ, truthyQ]
  · rw [hf]
    norm_num [posOpen0, longClose0, shortClose0]

end FundingArb

namespace FundingArb

/-- C10: when a `close_position` call on an OPEN position receives an
`ExecutionResult` missing one leg's order, the operation still succeeds and
terminates the position as CLOSED; the missing leg's close price is
persisted as 0, no CLOSE trade is recorded for that leg (the trade list is
exactly the present leg's CLOSE trade), and the missing leg contributes 0
to the realized P&L: it equals the present leg's close P&L plus
`funding_collected` minus the accumulated fees. -/
theorem C10_missing_leg_close (p : Position) (execution : ExecutionResult) :
    (∀ so, p.status = .OPEN → execution.long_order = none →
      execution.short_order = some so →
      ∃ q trades, close_position (some p) execution = .ok (q, trades) ∧
        q.status = .CLOSED ∧ q.long_close_price = some 0 ∧
        trades = [record_trade p.id so p.short_exchange .SHORT .CLOSE] ∧
        q.realized_pnl = some (short_close_pnl p so +
          p.funding_collected - (p.total_fees + so.fee))) ∧
    (∀ lo, p.status = .OPEN → execution.short_order = none →
      execution.long_order = some lo →
      ∃ q trades, close_position (some p) execution = .ok (q, trades) ∧
        q.status = .CLOSED ∧ q.short_close_price = some 0 ∧
        trades = [record_trade p.id lo p.long_exchange .LONG .CLOSE] ∧
        q.realized_pnl = some (long_close_pnl p lo +
          p.funding_collected - (p.total_fees + lo.fee))) := by
  constructor
  · intro so hopen hl hs
    unfold close_position
    dsimp only
    simp only [Position.is_open, hopen, hl, hs, beq_self_eq_true, not_true,
      Bool.not_eq_true, if_false]
    refine ⟨_, _, rfl, rfl, rfl, by simp, ?_⟩
    unfold short_close_pnl
    norm_num
  · intro lo hopen hs hl
    unfold close_position
    dsimp only
    simp only [Position.is_open, hopen, hl, hs, beq_self_eq_true, not_true,
      Bool.not_eq_true, if_false]
    refine ⟨_, _, rfl, rfl, rfl, by simp, ?_⟩
    unfold long_close_pnl
    norm_num

/-- Witness for C10 at `posOpen0`, with the long leg missing
(`execLongMissing`) and with the short leg missing (`execShortMissing`). -/
theorem C10_witness :
    posOpen0.status = .OPEN ∧
    (∃ q trades,
      close_position (some posOpen0) execLongMissing = .ok (q, trades) ∧
      q.status = .CLOSED ∧ q.long_close_price = some 0 ∧
      trades =
        [record_trade posOpen0.id shortClose0 posOpen0.short_exchange
          .SHORT .CLOSE] ∧
      q.realized_pnl = some (short_close_pnl posOpen0 shortClose0 +
        posOpen0.funding_collected -
        (posOpen0.total_fees + shortClose0.fee))) ∧
    (∃ q trades,
      close_position (some posOpen0) execShortMissing = .ok (q, trades) ∧
      q.status = .CLOSED ∧ q.short_close_price = some 0 ∧
      trades =
        [record_trade posOpen0.id longClose0 posOpen0.long_exchange
          .LONG .CLOSE] ∧
      q.realized_pnl = some (long_close_pnl posOpen0 longClose0 +
        posOpen0.funding_collected -
        (posOpen0.total_fees + longClose0.fee))) := by
  refine ⟨rfl, ?_, ?_⟩
  · exact (C10_missing_leg_close posOpen0 execLongMissing).1 shortClose0
      rfl rfl rfl
  · exact (C10_missing_leg_close posOpen0 execShortMissing).2 longClose0
      rfl rfl rfl

end FundingArb

namespace FundingArb

/-- Any `RiskManager` operation other than `deactivate_kill_switch` leaves
an active kill switch active. -/
theorem riskStep_active_mono (m : ℚ) (s : RiskState) (op : RiskOp)
    (hop : op ≠ .deactivate) (h : s.kill_switch_active = true) :
    (riskStep m s op).kill_switch_active = true := by
  cases op with
  | activate now => simp [riskStep, activate_kill_switch, h]
  | deactivate => exact absurd rfl hop
  | pausePair sym now c => simp [riskStep, pause_pair, h]
  | isPairPaused sym now =>
    simp only [riskStep, is_pair_paused]
    rcases s.paused_pairs.lookup sym with _ | expiry
    · exact h
    · dsimp only
      split
      · exact h
      · exact h
  | canOpenPosition sym size now =>
    simp [riskStep, can_open_position, h]
  | checkForLiquidations f =>
    simp [riskStep, check_for_liquidations, h]
  | handleLiquidation sym now =>
    simp [riskStep, handle_liquidation, pause_pair, h]

/-- A deactivate-free operation sequence leaves an active kill switch
active. -/
theorem riskFold_active (m : ℚ) (ops : List RiskOp)
    (hnd : RiskOp.deactivate ∉ ops) :
    ∀ s : RiskState, s.kill_switch_active = true →
      (ops.foldl (riskStep m) s).kill_switch_active = true := by
  induction ops with
  | nil => exact fun s h => h
  | cons op rest ih =>
    intro s h
    have hop : op ≠ .deactivate := by
      intro he
      exact hnd (he ▸ List.mem_cons_self op rest)
    have hrest : RiskOp.deactivate ∉ rest := by
      intro he
      exact hnd (List.mem_cons_of_mem op he)
    exact ih hrest _ (riskStep_active_mono m s op hop h)

/-- C8: in every sequence of `RiskManager` operations, once
`activate_kill_switch` has run and no `deactivate_kill_switch` follows,
trading stays disabled and `can_open_position` answers
`(false, "Kill switch is active")` for every symbol and size; a further
`activate` is a no-op on the state, and only an explicit `deactivate`
clears the switch. -/
theorem C8_kill_switch_monotone (m : ℚ) (s : RiskState) (t : ℚ)
    (ops : List RiskOp) (hnd : RiskOp.deactivate ∉ ops) :
    is_trading_enabled
        (ops.foldl (riskStep m) (riskStep m s (.activate t))) = false ∧
    (∀ symbol size now,
      (can_open_position m
          (ops.foldl (riskStep m) (riskStep m s (.activate t)))
          symbol size now).2 = (false, "Kill switch is active")) ∧
    (∀ u, riskStep m (ops.foldl (riskStep m) (riskStep m s (.activate t)))
        (.activate u) =
      ops.foldl (riskStep m) (riskStep m s (.activate t))) ∧
    (riskStep m (ops.foldl (riskStep m) (riskStep m s (.activate t)))
        .deactivate).kill_switch_active = false := by
  have hact0 : (riskStep m s (.activate t)).kill_switch_active = true := by
    simp only [riskStep, activate_kill_switch]
    split
    · rename_i hs
      exact hs
    · rfl
  have hact : (ops.foldl (riskStep m)
      (riskStep m s (.activate t))).kill_switch_active = true :=
    riskFold_active m ops hnd _ hact0
  refine ⟨?_, ?_, ?_, ?_⟩
  · simp [is_trading_enabled, hact]
  · intro symbol size now
    simp [can_open_position, hact]
  · intro u
    show activate_kill_switch _ u = _
    unfold activate_kill_switch
    rw [if_pos hact]
  · show (deactivate_kill_switch _).kill_switch_active = false
    unfold deactivate_kill_switch
    rw [if_neg (by simp [hact])]

/-- Witness for C8: starting from the fresh risk state, activating at `t=0`
and then running the deactivate-free sequence `riskOps0` leaves trading
disabled and every admission check refused with the kill-switch reason. -/
theorem C8_witness :
    RiskOp.deactivate ∉ riskOps0 ∧
    is_trading_enabled
      (riskOps0.foldl (riskStep 50000)
        (riskStep 50000 {} (.activate 0))) = false ∧
    (can_open_position 50000
        (riskOps0.foldl (riskStep 50000) (riskStep 50000 {} (.activate 0)))
        "ETH/USDT:USDT" 1000 50).2 = (false, "Kill switch is active") := by
  have hnd : RiskOp.deactivate ∉ riskOps0 := by decide
  have h := C8_kill_switch_monotone 50000 {} 0 riskOps0 hnd
  exact ⟨hnd, h.1, h.2.1 "ETH/USDT:USDT" 1000 50⟩

end FundingArb
